import Mathlib

/-!
Shallow embedding of the scoring core of the stock-dashboard repository.

Numbers are modelled as rationals (`ℚ`); integer results of `Math.round`
are modelled as `ℤ` via `jsRound`.  JavaScript truthiness of a possibly
missing numeric field is modelled by `jsTruthy` on `Option ℚ` (absent and
`0` are falsy), and the JavaScript `||` operator on such fields by `jsOr`.
Insight texts are abstracted into the inductive `InsightTag`, one
constructor per distinct insight site of the source; the insight `type`
strings are the inductive `InsightType`.
-/

namespace StockDashboard

/-- JavaScript `Math.round` on a rational: round half toward positive infinity. -/
def jsRound (q : ℚ) : ℤ := ⌊q + 1/2⌋

/-- Truthiness of a nullable JavaScript number: `null`/`undefined` and `0` are falsy. -/
def jsTruthy : Option ℚ → Bool
  | none => false
  | some x => x != 0

/-- JavaScript `a || b` on nullable numbers: `b` when `a` is falsy, else `a`. -/
def jsOr (a b : Option ℚ) : Option ℚ := if jsTruthy a then a else b

/-- Finnhub quote shape `{c, h, l, o, pc, dp, d}`; every field may be absent. -/
structure Quote where
  c : Option ℚ
  h : Option ℚ
  l : Option ℚ
  o : Option ℚ
  pc : Option ℚ
  dp : Option ℚ
  d : Option ℚ
deriving DecidableEq

/-- Company profile fields used by the scoring core. -/
structure Profile where
  marketCapitalization : Option ℚ
  finnhubIndustry : Option String
deriving DecidableEq

/-- Historical candle data; field `c` is the list of closes (absent when undefined). -/
structure Historical where
  c : Option (List ℚ)
deriving DecidableEq

namespace StockScoringService

/-- `calculatePriceScore`: buckets of the daily percent change `quote.dp`. -/
def calculatePriceScore (quote : Option Quote) : ℤ :=
  match quote with
  | none => 50
  | some q =>
    match q.dp with
    | none => 50
    | some changePercent =>
      if changePercent > 5 then 90
      else if changePercent > 2 then 80
      else if changePercent > 0 then 65
      else if changePercent > -2 then 35
      else if changePercent > -5 then 20
      else 10

/-- `calculateMomentumScore`: position of the current price in the day range.
The source guards with JS truthiness on `h`, `l`, `c` and does not clamp. -/
def calculateMomentumScore (quote : Option Quote) : ℤ :=
  match quote with
  | none => 50
  | some q =>
    if jsTruthy q.h && jsTruthy q.l && jsTruthy q.c then
      let high := q.h.getD 0
      let low := q.l.getD 0
      let current := q.c.getD 0
      if high - low = 0 then 50
      else jsRound ((current - low) / (high - low) * 100)
    else 50

/-- `calculateVolatilityScore`: inverse-scored day range relative to previous close. -/
def calculateVolatilityScore (quote : Option Quote) : ℤ :=
  match quote with
  | none => 50
  | some q =>
    if jsTruthy q.h && jsTruthy q.l && jsTruthy q.pc then
      let high := q.h.getD 0
      let low := q.l.getD 0
      let previousClose := q.pc.getD 0
      let volatility := (high - low) / previousClose * 100
      if volatility < 1 then 80
      else if volatility < 2 then 70
      else if volatility < 3 then 60
      else if volatility < 5 then 40
      else if volatility < 8 then 25
      else 10
    else 50

/-- `calculateMarketScore`: market-capitalization tier (input in currency millions).
The guard is JS truthiness, so a present `0` market cap also yields 50. -/
def calculateMarketScore (profile : Option Profile) : ℤ :=
  match profile with
  | none => 50
  | some p =>
    if jsTruthy p.marketCapitalization then
      let marketCap := p.marketCapitalization.getD 0
      if marketCap > 10000 then 80
      else if marketCap > 2000 then 65
      else if marketCap > 300 then 45
      else 30
    else 50

/-- Threshold map used by `calculateTrendScore` on the percent trend difference. -/
def trendBucket (trendPercent : ℚ) : ℤ :=
  if trendPercent > 10 then 90
  else if trendPercent > 5 then 80
  else if trendPercent > 0 then 65
  else if trendPercent > -5 then 35
  else if trendPercent > -10 then 20
  else 10

/-- `calculateTrendScore`: recent five-close average against the older window
`prices.slice(-20, -15)`.  For fewer than 16 closes that slice is empty, its
average is `0/0 = NaN` in JS, every `>` comparison on it is false and the
function falls through to 10; that NaN path, and the infinities arising when
the older average is exactly zero, are made explicit here. -/
def calculateTrendScore (historicalData : Option Historical) : ℤ :=
  match historicalData with
  | none => 50
  | some hd =>
    match hd.c with
    | none => 50
    | some closes =>
      if closes.length < 10 then 50
      else
        let prices := closes.drop (closes.length - 20)
        let recentPrices := prices.drop (prices.length - 5)
        let olderPrices := prices.take (prices.length - 15)
        if olderPrices.isEmpty then
          -- JS: olderAvg = 0/0 = NaN, trendPercent = NaN, all comparisons false
          10
        else
          let recentAvg := recentPrices.sum / (recentPrices.length : ℚ)
          let olderAvg := olderPrices.sum / (olderPrices.length : ℚ)
          if olderAvg = 0 then
            -- JS: division by zero gives plus infinity when recentAvg > 0
            -- (first bucket, 90) and minus infinity or NaN otherwise (10)
            if recentAvg > 0 then 90 else 10
          else
            trendBucket ((recentAvg - olderAvg) / olderAvg * 100)

/-- Sub-score breakdown of `calculateScore`; `trend` is present only when
historical closes were supplied with more than one entry. -/
structure TechBreakdown where
  price : ℤ
  momentum : ℤ
  volatility : ℤ
  market : ℤ
  trend : Option ℤ
deriving DecidableEq

/-- Label and color pair of the technical `getScoreLabel`. -/
structure TechLabel where
  label : String
  color : String
deriving DecidableEq

/-- Technical `getScoreLabel` over the `scoreThresholds` table. -/
def getScoreLabel (score : ℤ) : TechLabel :=
  if score ≥ 70 then ⟨"Strong", "#10B981"⟩
  else if score ≥ 40 then ⟨"Moderate", "#F59E0B"⟩
  else ⟨"Weak", "#EF4444"⟩

/-- Result object of `calculateScore` (the free-text explanation is not modelled;
no claim concerns it). -/
structure TechScore where
  score : ℤ
  label : String
  color : String
  breakdown : TechBreakdown
deriving DecidableEq

/-- `calculateScore`: the five sub-scores, combined by the weight table
price 0.30, momentum 0.25, volatility 0.20, market 0.15, trend 0.10; the
trend entry exists only when `historicalData.c` has length above one.  The
fold over present sub-scores is rendered as the explicit sum below (the four
quote-based sub-scores are total and never null). -/
def calculateScore (quote : Option Quote) (profile : Option Profile)
    (historicalData : Option Historical) : TechScore :=
  let scores : TechBreakdown :=
    { price := calculatePriceScore quote
      momentum := calculateMomentumScore quote
      volatility := calculateVolatilityScore quote
      market := calculateMarketScore profile
      trend :=
        match historicalData with
        | some hd =>
          match hd.c with
          | some closes =>
            if closes.length > 1 then some (calculateTrendScore historicalData) else none
          | none => none
        | none => none }
  let totalScore : ℚ :=
    (scores.price : ℚ) * (3/10) + (scores.momentum : ℚ) * (1/4)
      + (scores.volatility : ℚ) * (1/5) + (scores.market : ℚ) * (3/20)
      + (match scores.trend with | some t => (t : ℚ) * (1/10) | none => 0)
  let totalWeight : ℚ :=
    9/10 + (match scores.trend with | some _ => (1/10 : ℚ) | none => 0)
  let finalScore : ℤ := if totalWeight > 0 then jsRound (totalScore / totalWeight) else 50
  { score := max 0 (min 100 finalScore)
    label := (getScoreLabel finalScore).label
    color := (getScoreLabel finalScore).color
    breakdown := scores }

end StockScoringService

namespace FundamentalAnalysisService

/-- Finnhub basic-financials metric fields read by the service; every field
may be absent (`null`/`undefined` collapse to `none`). -/
structure Metrics where
  peBasicExclExtraTTM : Option ℚ := none
  peTTM : Option ℚ := none
  pbQuarterly : Option ℚ := none
  pbAnnual : Option ℚ := none
  roeRfy : Option ℚ := none
  roeTTM : Option ℚ := none
  roaRfy : Option ℚ := none
  roaTTM : Option ℚ := none
  epsBasicExclExtraItemsTTM : Option ℚ := none
  epsTTM : Option ℚ := none
  bookValuePerShareQuarterly : Option ℚ := none
  bookValuePerShareAnnual : Option ℚ := none
  totalDebt2EquityQuarterly : Option ℚ := none
  totalDebt2EquityAnnual : Option ℚ := none
  currentRatioQuarterly : Option ℚ := none
  currentRatioAnnual : Option ℚ := none
  quickRatioQuarterly : Option ℚ := none
  quickRatioAnnual : Option ℚ := none
  netProfitMarginTTM : Option ℚ := none
  operatingMarginTTM : Option ℚ := none
  dividendYieldIndicatedAnnual : Option ℚ := none
  dividendsPerShareTTM : Option ℚ := none
  revenueGrowthTTMYoy : Option ℚ := none
  epsGrowthTTMYoy : Option ℚ := none
deriving DecidableEq

/-- Canonical key ratios produced by `extractKeyRatios`. -/
structure KeyRatios where
  peRatio : Option ℚ
  pbRatio : Option ℚ
  roe : Option ℚ
  roa : Option ℚ
  eps : Option ℚ
  bookValue : Option ℚ
  debtToEquity : Option ℚ
  currentRatio : Option ℚ
  quickRatio : Option ℚ
  profitMargin : Option ℚ
  operatingMargin : Option ℚ
  dividendYield : Option ℚ
  dividendPerShare : Option ℚ
  revenueGrowth : Option ℚ
  epsGrowth : Option ℚ
deriving DecidableEq

/-- `extractKeyRatios`: each canonical ratio is the JavaScript `||`-chain of
its provider-key synonyms, ending in `null`. -/
def extractKeyRatios (metrics : Metrics) : KeyRatios :=
  { peRatio := jsOr metrics.peBasicExclExtraTTM (jsOr metrics.peTTM none)
    pbRatio := jsOr metrics.pbQuarterly (jsOr metrics.pbAnnual none)
    roe := jsOr metrics.roeRfy (jsOr metrics.roeTTM none)
    roa := jsOr metrics.roaRfy (jsOr metrics.roaTTM none)
    eps := jsOr metrics.epsBasicExclExtraItemsTTM (jsOr metrics.epsTTM none)
    bookValue := jsOr metrics.bookValuePerShareQuarterly (jsOr metrics.bookValuePerShareAnnual none)
    debtToEquity := jsOr metrics.totalDebt2EquityQuarterly (jsOr metrics.totalDebt2EquityAnnual none)
    currentRatio := jsOr metrics.currentRatioQuarterly (jsOr metrics.currentRatioAnnual none)
    quickRatio := jsOr metrics.quickRatioQuarterly (jsOr metrics.quickRatioAnnual none)
    profitMargin := jsOr metrics.netProfitMarginTTM none
    operatingMargin := jsOr metrics.operatingMarginTTM none
    dividendYield := jsOr metrics.dividendYieldIndicatedAnnual none
    dividendPerShare := jsOr metrics.dividendsPerShareTTM none
    revenueGrowth := jsOr metrics.revenueGrowthTTMYoy none
    epsGrowth := jsOr metrics.epsGrowthTTMYoy none }

/-- Industry benchmark record of `industryBenchmarks`. -/
structure Benchmark where
  peRatio : ℚ
  pbRatio : ℚ
  roe : ℚ
  debtToEquity : ℚ
  currentRatio : ℚ
  profitMargin : ℚ
deriving DecidableEq

def technologyBenchmark : Benchmark := ⟨25, 9/2, 15, 3/10, 2, 20⟩

def healthcareBenchmark : Benchmark := ⟨18, 16/5, 12, 2/5, 5/2, 15⟩

def financialBenchmark : Benchmark := ⟨12, 6/5, 10, 4/5, 11/10, 25⟩

def defaultBenchmark : Benchmark := ⟨20, 5/2, 12, 1/2, 2, 10⟩

/-- `toLowerCase`, modelled on the character list (structurally recursive,
unlike the well-founded `String.toLower`, so that it evaluates). -/
def lowerData (s : String) : List Char := s.data.map Char.toLower

/-- Substring test (`String.includes`) on character lists. -/
def strContains (s pat : List Char) : Bool := decide (pat <:+: s)

/-- `getIndustryBenchmark`: case-insensitive substring match over a fixed set
of industry buckets, defaulting when nothing matches or the input is absent. -/
def getIndustryBenchmark (industry : Option String) : Benchmark :=
  let industryLower := lowerData (industry.getD "")
  if strContains industryLower "technology".data
      || strContains industryLower "software".data then
    technologyBenchmark
  else if strContains industryLower "healthcare".data
      || strContains industryLower "pharmaceutical".data then
    healthcareBenchmark
  else if strContains industryLower "financial".data
      || strContains industryLower "bank".data then
    financialBenchmark
  else
    defaultBenchmark

/-- Insight `type` strings. -/
inductive InsightType where
  | positive
  | negative
  | neutral
  | warning
deriving DecidableEq

/-- One constructor per distinct insight site of the source; the formatted
message texts are abstracted into these tags. -/
inductive InsightTag where
  | peUndervalued
  | peOvervalued
  | peReasonable
  | pbBelowBook
  | pbPremium
  | roeStrong
  | roeBelow
  | marginHealthy
  | marginLow
  | currentStrong
  | currentConcern
  | quickGood
  | debtConservative
  | debtHigh
  | debtReasonable
  | yieldUnsustainable
  | yieldAttractive
  | noDividends
  | revenueStrong
  | revenueDeclining
  | epsExcellent
  | epsDeclining
deriving DecidableEq

/-- An insight entry `{type, text}` with the text abstracted to a tag. -/
structure Insight where
  itype : InsightType
  tag : InsightTag
deriving DecidableEq

/-- One named ratio entry of a category: name, value, benchmark. -/
def RatioEntry : Type := String × Option ℚ × Option ℚ

/-- A category analysis `{score, insights, ratios}`. -/
structure CategoryScore where
  score : ℤ
  insights : List Insight
  ratios : List RatioEntry

/-- `analyzeValuation`: P/E against the industry benchmark, P/B against book
value and the benchmark. -/
def analyzeValuation (metrics : Metrics) (industry : Benchmark) : CategoryScore :=
  let peRatio := jsOr metrics.peBasicExclExtraTTM metrics.peTTM
  let pbRatio := jsOr metrics.pbQuarterly metrics.pbAnnual
  let analysis : CategoryScore :=
    { score := 50
      insights := []
      ratios := [("peRatio", peRatio, some industry.peRatio),
                 ("pbRatio", pbRatio, some industry.pbRatio)] }
  let analysis :=
    if jsTruthy peRatio then
      let pe := peRatio.getD 0
      if pe < industry.peRatio * (4/5) then
        { analysis with
          score := analysis.score + 15
          insights := analysis.insights ++ [⟨InsightType.positive, InsightTag.peUndervalued⟩] }
      else if pe > industry.peRatio * (3/2) then
        { analysis with
          score := analysis.score - 10
          insights := analysis.insights ++ [⟨InsightType.negative, InsightTag.peOvervalued⟩] }
      else
        { analysis with
          insights := analysis.insights ++ [⟨InsightType.neutral, InsightTag.peReasonable⟩] }
    else analysis
  if jsTruthy pbRatio then
    let pb := pbRatio.getD 0
    if pb < 1 then
      { analysis with
        score := analysis.score + 10
        insights := analysis.insights ++ [⟨InsightType.positive, InsightTag.pbBelowBook⟩] }
    else if pb > industry.pbRatio * (3/2) then
      { analysis with
        score := analysis.score - 5
        insights := analysis.insights ++ [⟨InsightType.negative, InsightTag.pbPremium⟩] }
    else analysis
  else analysis

/-- `analyzeProfitability`: ROE and net profit margin rules; ROA and operating
margin are only reported in the ratio table. -/
def analyzeProfitability (metrics : Metrics) (industry : Benchmark) : CategoryScore :=
  let roe := jsOr metrics.roeRfy metrics.roeTTM
  let roa := jsOr metrics.roaRfy metrics.roaTTM
  let profitMargin := metrics.netProfitMarginTTM
  let operatingMargin := metrics.operatingMarginTTM
  let analysis : CategoryScore :=
    { score := 50
      insights := []
      ratios := [("roe", roe, some industry.roe),
                 ("roa", roa, some 5),
                 ("profitMargin", profitMargin, some industry.profitMargin),
                 ("operatingMargin", operatingMargin, some 15)] }
  let analysis :=
    if jsTruthy roe then
      let r := roe.getD 0
      if r > industry.roe then
        { analysis with
          score := analysis.score + 15
          insights := analysis.insights ++ [⟨InsightType.positive, InsightTag.roeStrong⟩] }
      else if r < industry.roe * (7/10) then
        { analysis with
          score := analysis.score - 10
          insights := analysis.insights ++ [⟨InsightType.negative, InsightTag.roeBelow⟩] }
      else analysis
    else analysis
  if jsTruthy profitMargin then
    let m := profitMargin.getD 0
    if m > industry.profitMargin then
      { analysis with
        score := analysis.score + 10
        insights := analysis.insights ++ [⟨InsightType.positive, InsightTag.marginHealthy⟩] }
    else if m < 5 then
      { analysis with
        score := analysis.score - 10
        insights := analysis.insights ++ [⟨InsightType.negative, InsightTag.marginLow⟩] }
    else analysis
  else analysis

/-- `analyzeLiquidity`: current- and quick-ratio rules. -/
def analyzeLiquidity (metrics : Metrics) (industry : Benchmark) : CategoryScore :=
  let currentRatio := jsOr metrics.currentRatioQuarterly metrics.currentRatioAnnual
  let quickRatio := jsOr metrics.quickRatioQuarterly metrics.quickRatioAnnual
  let analysis : CategoryScore :=
    { score := 50
      insights := []
      ratios := [("currentRatio", currentRatio, some industry.currentRatio),
                 ("quickRatio", quickRatio, some 1)] }
  let analysis :=
    if jsTruthy currentRatio then
      let c := currentRatio.getD 0
      if c ≥ 2 then
        { analysis with
          score := analysis.score + 15
          insights := analysis.insights ++ [⟨InsightType.positive, InsightTag.currentStrong⟩] }
      else if c < 1 then
        { analysis with
          score := analysis.score - 15
          insights := analysis.insights ++ [⟨InsightType.negative, InsightTag.currentConcern⟩] }
      else analysis
    else analysis
  if jsTruthy quickRatio then
    let q := quickRatio.getD 0
    if q ≥ 1 then
      { analysis with
        score := analysis.score + 10
        insights := analysis.insights ++ [⟨InsightType.positive, InsightTag.quickGood⟩] }
    else analysis
  else analysis

/-- `analyzeLeverage`: debt-to-equity against the benchmark.  Unlike the other
categories the guard is an explicit null check, not truthiness, so a present
`0` is analyzed. -/
def analyzeLeverage (metrics : Metrics) (industry : Benchmark) : CategoryScore :=
  let debtToEquity := jsOr metrics.totalDebt2EquityQuarterly metrics.totalDebt2EquityAnnual
  let analysis : CategoryScore :=
    { score := 50
      insights := []
      ratios := [("debtToEquity", debtToEquity, some industry.debtToEquity)] }
  match debtToEquity with
  | none => analysis
  | some d =>
    if d < industry.debtToEquity * (7/10) then
      { analysis with
        score := analysis.score + 15
        insights := analysis.insights ++ [⟨InsightType.positive, InsightTag.debtConservative⟩] }
    else if d > industry.debtToEquity * (3/2) then
      { analysis with
        score := analysis.score - 15
        insights := analysis.insights ++ [⟨InsightType.negative, InsightTag.debtHigh⟩] }
    else
      { analysis with
        insights := analysis.insights ++ [⟨InsightType.neutral, InsightTag.debtReasonable⟩] }

/-- `analyzeDividend`: yield rules behind a truthiness guard; the source also
holds a `dividendYield === 0` branch inside that guard. -/
def analyzeDividend (metrics : Metrics) : CategoryScore :=
  let dividendYield := metrics.dividendYieldIndicatedAnnual
  let dividendPerShare := metrics.dividendsPerShareTTM
  let analysis : CategoryScore :=
    { score := 50
      insights := []
      ratios := [("dividendYield", dividendYield, some 3),
                 ("dividendPerShare", dividendPerShare, none)] }
  if jsTruthy dividendYield then
    let y := dividendYield.getD 0
    if y > 6 then
      { analysis with
        score := analysis.score - 5
        insights := analysis.insights ++ [⟨InsightType.warning, InsightTag.yieldUnsustainable⟩] }
    else if y ≥ 2 ∧ y ≤ 6 then
      { analysis with
        score := analysis.score + 10
        insights := analysis.insights ++ [⟨InsightType.positive, InsightTag.yieldAttractive⟩] }
    else if y = 0 then
      { analysis with
        insights := analysis.insights ++ [⟨InsightType.neutral, InsightTag.noDividends⟩] }
    else analysis
  else analysis

/-- `analyzeGrowth`: revenue- and EPS-growth rules. -/
def analyzeGrowth (metrics : Metrics) : CategoryScore :=
  let revenueGrowth := metrics.revenueGrowthTTMYoy
  let epsGrowth := metrics.epsGrowthTTMYoy
  let analysis : CategoryScore :=
    { score := 50
      insights := []
      ratios := [("revenueGrowth", revenueGrowth, some 10),
                 ("epsGrowth", epsGrowth, some 10)] }
  let analysis :=
    if jsTruthy revenueGrowth then
      let r := revenueGrowth.getD 0
      if r > 20 then
        { analysis with
          score := analysis.score + 20
          insights := analysis.insights ++ [⟨InsightType.positive, InsightTag.revenueStrong⟩] }
      else if r < 0 then
        { analysis with
          score := analysis.score - 15
          insights := analysis.insights ++ [⟨InsightType.negative, InsightTag.revenueDeclining⟩] }
      else analysis
    else analysis
  if jsTruthy epsGrowth then
    let e := epsGrowth.getD 0
    if e > 15 then
      { analysis with
        score := analysis.score + 15
        insights := analysis.insights ++ [⟨InsightType.positive, InsightTag.epsExcellent⟩] }
    else if e < -10 then
      { analysis with
        score := analysis.score - 15
        insights := analysis.insights ++ [⟨InsightType.negative, InsightTag.epsDeclining⟩] }
    else analysis
  else analysis

/-- Label `{text, color}` of the fundamental `getScoreLabel`. -/
structure FundLabel where
  text : String
  color : String
deriving DecidableEq

/-- Fundamental `getScoreLabel` thresholds. -/
def getScoreLabel (score : ℚ) : FundLabel :=
  if score ≥ 75 then ⟨"Excellent", "#059669"⟩
  else if score ≥ 60 then ⟨"Good", "#0891b2"⟩
  else if score ≥ 40 then ⟨"Fair", "#d97706"⟩
  else ⟨"Poor", "#dc2626"⟩

/-- Count the insights of a given type across the six category analyses. -/
def countInsights (categories : List CategoryScore) (t : InsightType) : ℕ :=
  (categories.map (fun c => c.insights.countP (fun i => i.itype == t))).sum

/-- `generateOverallSummary`: template sentence chosen by comparing the
positive and negative insight counts across the categories. -/
def generateOverallSummary (categories : List CategoryScore) : String :=
  let positives := countInsights categories InsightType.positive
  let negatives := countInsights categories InsightType.negative
  let head :=
    if positives > negatives then "The company shows strong fundamental metrics with "
    else if negatives > positives then "The company faces some fundamental challenges with "
    else "The company shows mixed fundamental signals with "
  head ++ toString positives ++ " positive and " ++ toString negatives ++ " concerning indicators."

/-- Overall fundamental result `{score, label, summary}`. -/
structure Overall where
  score : ℤ
  label : FundLabel
  summary : String

/-- `calculateOverallScore`: the weight table valuation 0.25, profitability
0.25, liquidity 0.15, leverage 0.15, dividend 0.10, growth 0.10; the returned
score is `Math.round(Math.max(0, Math.min(100, weightedScore)))` while the
label is computed from the unrounded `weightedScore`. -/
def calculateOverallScore (valuation profitability liquidity leverage dividend growth :
    CategoryScore) : Overall :=
  let weightedScore : ℚ :=
    (valuation.score : ℚ) * (1/4) + (profitability.score : ℚ) * (1/4)
      + (liquidity.score : ℚ) * (3/20) + (leverage.score : ℚ) * (3/20)
      + (dividend.score : ℚ) * (1/10) + (growth.score : ℚ) * (1/10)
  { score := jsRound (max 0 (min 100 weightedScore))
    label := getScoreLabel weightedScore
    summary := generateOverallSummary
      [valuation, profitability, liquidity, leverage, dividend, growth] }

/-- The full analysis object built by `analyzeFundamentals`. -/
structure FundamentalAnalysis where
  keyRatios : KeyRatios
  valuation : CategoryScore
  profitability : CategoryScore
  liquidity : CategoryScore
  leverage : CategoryScore
  dividend : CategoryScore
  growth : CategoryScore
  overall : Overall

/-- `analyzeFundamentals`: `none` models an absent `basicFinancials.metric`
payload, for which the source returns `null` before any extraction runs. -/
def analyzeFundamentals (basicFinancialsMetric : Option Metrics)
    (profile : Option Profile) : Option FundamentalAnalysis :=
  match basicFinancialsMetric with
  | none => none
  | some metrics =>
    let industry := getIndustryBenchmark (profile.bind Profile.finnhubIndustry)
    let valuation := analyzeValuation metrics industry
    let profitability := analyzeProfitability metrics industry
    let liquidity := analyzeLiquidity metrics industry
    let leverage := analyzeLeverage metrics industry
    let dividend := analyzeDividend metrics
    let growth := analyzeGrowth metrics
    some
      { keyRatios := extractKeyRatios metrics
        valuation := valuation
        profitability := profitability
        liquidity := liquidity
        leverage := leverage
        dividend := dividend
        growth := growth
        overall := calculateOverallScore valuation profitability liquidity leverage
          dividend growth }

end FundamentalAnalysisService

namespace SentimentService

/-- Sentiment label of one headline. -/
inductive SentimentLabel where
  | positive
  | negative
  | neutral
deriving DecidableEq

/-- One per-headline sentiment result; `error` models the truthiness of the
optional error field of the source tuples. -/
structure SentimentResult where
  label : SentimentLabel
  score : ℚ
  error : Bool
deriving DecidableEq

/-- Rounded percentage triple of a nonempty aggregation. -/
structure SentPercentages where
  positive : ℤ
  neutral : ℤ
  negative : ℤ
deriving DecidableEq

/-- The aggregated summary object.  The empty-input return object of the
source carries no `total` and no `percentages` key, hence the `Option`s. -/
structure SentimentSummary where
  positive : ℕ
  neutral : ℕ
  negative : ℕ
  total : Option ℕ
  overall : String
  summary : String
  percentages : Option SentPercentages
deriving DecidableEq

/-- The accumulator step of the counts `reduce`: an errored result counts as
neutral, otherwise the result's own label counter is bumped.  The triple is
`(positive, neutral, negative)`. -/
def countStep (acc : ℕ × ℕ × ℕ) (r : SentimentResult) : ℕ × ℕ × ℕ :=
  if r.error then (acc.1, acc.2.1 + 1, acc.2.2)
  else
    match r.label with
    | SentimentLabel.positive => (acc.1 + 1, acc.2.1, acc.2.2)
    | SentimentLabel.neutral => (acc.1, acc.2.1 + 1, acc.2.2)
    | SentimentLabel.negative => (acc.1, acc.2.1, acc.2.2 + 1)

/-- The counts fold of `aggregateSentiments`. -/
def sentCounts (results : List SentimentResult) : ℕ × ℕ × ℕ :=
  results.foldl countStep (0, 0, 0)

/-- The summary object returned for an absent or empty result list. -/
def emptySentimentSummary : SentimentSummary :=
  { positive := 0
    neutral := 0
    negative := 0
    total := none
    overall := "neutral"
    summary := "No sentiment data available."
    percentages := none }

/-- `aggregateSentiments`: counts, total, overall label, template summary and
rounded percentages; `none` input models an absent argument. -/
def aggregateSentiments (sentimentResults : Option (List SentimentResult)) :
    SentimentSummary :=
  match sentimentResults with
  | none => emptySentimentSummary
  | some results =>
    if results.length = 0 then emptySentimentSummary
    else
      let counts := sentCounts results
      let total := counts.1 + counts.2.1 + counts.2.2
      let overall : String :=
        if counts.1 > counts.2.2 + counts.2.1 then "positive"
        else if counts.2.2 > counts.1 + counts.2.1 then "negative"
        else "neutral"
      let summary : String :=
        if overall = "positive" then
          "Recent news is mostly positive, with " ++ toString counts.1 ++ " positive, "
            ++ toString counts.2.1 ++ " neutral, and " ++ toString counts.2.2
            ++ " negative headlines."
        else if overall = "negative" then
          "Recent news is mostly negative, with " ++ toString counts.2.2 ++ " negative, "
            ++ toString counts.2.1 ++ " neutral, and " ++ toString counts.1
            ++ " positive headlines."
        else
          "Recent news sentiment is mixed, with " ++ toString counts.1 ++ " positive, "
            ++ toString counts.2.1 ++ " neutral, and " ++ toString counts.2.2
            ++ " negative headlines."
      { positive := counts.1
        neutral := counts.2.1
        negative := counts.2.2
        total := some total
        overall := overall
        summary := summary
        percentages := some
          { positive := jsRound ((counts.1 : ℚ) / (total : ℚ) * 100)
            neutral := jsRound ((counts.2.1 : ℚ) / (total : ℚ) * 100)
            negative := jsRound ((counts.2.2 : ℚ) / (total : ℚ) * 100) } }

end SentimentService

end StockDashboard

namespace StockDashboard

open StockScoringService FundamentalAnalysisService SentimentService

/-! ## Claim C2: momentum sub-score -/

/-- Claim C2 counterexample: for the quote `{c: 20, h: 10, l: 5}` the momentum
sub-score is 300, not a value clamped to `[0, 100]` as the claim states: the
source applies `Math.round` to the range position without any clamping. -/
theorem momentum_not_clamped_cex :
    calculateMomentumScore (some ⟨some 20, some 10, some 5, none, none, none, none⟩) = 300
    ∧ ¬ calculateMomentumScore (some ⟨some 20, some 10, some 5, none, none, none, none⟩) ≤ 100 := by
  have h : calculateMomentumScore (some ⟨some 20, some 10, some 5, none, none, none, none⟩)
      = 300 := by
    norm_num [calculateMomentumScore, jsTruthy, jsRound]
  exact ⟨h, by rw [h]; norm_num⟩

/-- Claim C2 as amended: for every quote with nonzero numeric `dayHigh`,
`dayLow` and current price, the momentum sub-score is the rounded (not
clamped) range position `(current − dayLow) / (dayHigh − dayLow) × 100`; it
lies in `[0, 100]` whenever the current price lies inside the day range, and
it is exactly 50 when `dayHigh == dayLow`. -/
theorem momentum_formula (q : Quote) (h l c : ℚ)
    (hh : q.h = some h) (hl : q.l = some l) (hc : q.c = some c)
    (hh0 : h ≠ 0) (hl0 : l ≠ 0) (hc0 : c ≠ 0) :
    (h = l → calculateMomentumScore (some q) = 50)
    ∧ (h ≠ l → calculateMomentumScore (some q) = jsRound ((c - l) / (h - l) * 100))
    ∧ (l ≤ c → c ≤ h →
        0 ≤ calculateMomentumScore (some q) ∧ calculateMomentumScore (some q) ≤ 100) := by
  have hval : calculateMomentumScore (some q)
      = if h - l = 0 then 50 else jsRound ((c - l) / (h - l) * 100) := by
    simp [calculateMomentumScore, hh, hl, hc, jsTruthy, hh0, hl0, hc0]
  refine ⟨?_, ?_, ?_⟩
  · intro heq
    rw [hval, if_pos (by rw [heq]; ring)]
  · intro hne
    rw [hval, if_neg (sub_ne_zero.mpr hne)]
  · intro hlc hch
    rcases eq_or_ne h l with heq | hne
    · rw [hval, if_pos (by rw [heq]; ring)]
      norm_num
    · have hlth : l < h := lt_of_le_of_ne (hlc.trans hch) (Ne.symm hne)
      have hpos : (0:ℚ) < h - l := by linarith
      have hx0 : (0:ℚ) ≤ (c - l) / (h - l) := div_nonneg (by linarith) (le_of_lt hpos)
      have hx1 : (c - l) / (h - l) ≤ 1 := (div_le_one hpos).mpr (by linarith)
      rw [hval, if_neg (sub_ne_zero.mpr hne)]
      unfold jsRound
      constructor
      · exact Int.le_floor.mpr (by push_cast; nlinarith)
      · have : ⌊(c - l) / (h - l) * 100 + 1/2⌋ < 101 :=
          Int.floor_lt.mpr (by push_cast; nlinarith)
        omega

/-- Witness for `momentum_formula` at the quote `{c: 7, h: 10, l: 5}`. -/
theorem momentum_formula_witness :
    0 ≤ calculateMomentumScore (some ⟨some 7, some 10, some 5, none, none, none, none⟩)
    ∧ calculateMomentumScore (some ⟨some 7, some 10, some 5, none, none, none, none⟩) ≤ 100 :=
  (momentum_formula ⟨some 7, some 10, some 5, none, none, none, none⟩ 10 5 7 rfl rfl rfl
    (by norm_num) (by norm_num) (by norm_num)).2.2 (by norm_num) (by norm_num)

/-! ## Claim C9: market-cap tier sub-score -/

/-- Claim C9 counterexample: a profile whose market capitalization is present
and equal to 0 scores 50, while the claim, for which only a null market cap
is neutral, demands the else-branch value 30: the source guard is JavaScript
truthiness, and 0 is falsy. -/
theorem market_cap_zero_cex :
    calculateMarketScore (some ⟨some 0, none⟩) = 50
    ∧ calculateMarketScore (some ⟨some 0, none⟩) ≠ 30 := by
  have h : calculateMarketScore (some ⟨some 0, none⟩) = 50 := by
    norm_num [calculateMarketScore, jsTruthy]
  exact ⟨h, by rw [h]; norm_num⟩

/-- Claim C9 as amended: a null or zero market capitalization yields the
neutral 50; any other market capitalization (in currency-unit millions) maps
through the tiers `>10000 → 80`, `>2000 → 65`, `>300 → 45`, else 30. -/
theorem market_score_table (p : Profile) :
    (p.marketCapitalization = none → calculateMarketScore (some p) = 50)
    ∧ (∀ mc : ℚ, p.marketCapitalization = some mc → mc = 0 →
        calculateMarketScore (some p) = 50)
    ∧ (∀ mc : ℚ, p.marketCapitalization = some mc → mc ≠ 0 →
        calculateMarketScore (some p) =
          if mc > 10000 then 80 else if mc > 2000 then 65 else if mc > 300 then 45 else 30)
    ∧ calculateMarketScore none = 50 := by
  refine ⟨?_, ?_, ?_, rfl⟩
  · intro hmc
    simp [calculateMarketScore, hmc, jsTruthy]
  · intro mc hmc hz
    simp [calculateMarketScore, hmc, jsTruthy, hz]
  · intro mc hmc hz
    simp [calculateMarketScore, hmc, jsTruthy, hz]

/-- Witness for `market_score_table` at a profile with market cap 10. -/
theorem market_score_table_witness :
    calculateMarketScore (some ⟨some 10, none⟩) =
      if (10:ℚ) > 10000 then 80 else if (10:ℚ) > 2000 then 65
      else if (10:ℚ) > 300 then 45 else 30 :=
  (market_score_table ⟨some 10, none⟩).2.2.1 10 rfl (by norm_num)

/-! ## Claim C8: sentiment aggregation on empty input -/

/-- Claim C8 counterexample: the empty-input summary object of the source has
no `total` key at all (modelled as `none`), so its `total` is not 0 as the
claim states. -/
theorem sentiment_empty_total_cex :
    (aggregateSentiments (some ([] : List SentimentResult))).total = none
    ∧ (aggregateSentiments (some ([] : List SentimentResult))).total ≠ some 0 := by
  exact ⟨rfl, by decide⟩

/-- Claim C8 as amended: an empty or absent input list yields the summary
with zero counts, overall `"neutral"` and the no-data message, without
throwing; its `total` field (like `percentages`) is omitted (`undefined` in
the source, `none` here) rather than 0. -/
theorem sentiment_empty_summary :
    aggregateSentiments none = emptySentimentSummary
    ∧ aggregateSentiments (some []) = emptySentimentSummary
    ∧ emptySentimentSummary.positive = 0
    ∧ emptySentimentSummary.neutral = 0
    ∧ emptySentimentSummary.negative = 0
    ∧ emptySentimentSummary.total = none
    ∧ emptySentimentSummary.percentages = none
    ∧ emptySentimentSummary.overall = "neutral"
    ∧ emptySentimentSummary.summary = "No sentiment data available." :=
  ⟨rfl, rfl, rfl, rfl, rfl, rfl, rfl, rfl, rfl⟩

/-! ## Claim C6: key-ratio extraction -/

/-- Modelled from the words of the spec for comparison: take the first
non-null value of the synonym list. -/
def specFirstNonNull : List (Option ℚ) → Option ℚ
  | [] => none
  | none :: rest => specFirstNonNull rest
  | some x :: _ => some x

/-- The `||`-chain the source actually evaluates: first truthy value. -/
def jsFirstTruthy (synonyms : List (Option ℚ)) : Option ℚ :=
  synonyms.foldr jsOr none

/-- Claim C6 counterexample: with `peBasicExclExtraTTM = 0` and `peTTM = 15`
the extracted P/E is 15, not the first non-null synonym value 0: the `||`
chain of the source skips falsy values, and 0 is falsy. -/
theorem first_truthy_not_first_nonnull_cex :
    (extractKeyRatios { peBasicExclExtraTTM := some 0, peTTM := some 15 }).peRatio = some 15
    ∧ specFirstNonNull [some 0, some 15] = some 0
    ∧ some (15:ℚ) ≠ some (0:ℚ) := by
  refine ⟨?_, rfl, by norm_num⟩
  norm_num [extractKeyRatios, jsOr, jsTruthy]

/-- Claim C6 as amended: each canonical ratio is the first truthy value of
its ordered synonym chain (trailing-twelve-month keys first); a present 0 is
skipped exactly like null, and when no synonym is truthy the ratio is null.
An absent metric map never reaches extraction: `analyzeFundamentals` returns
null for it. -/
theorem extract_key_ratios_first_truthy (m : Metrics) (pr : Option Profile) :
    (extractKeyRatios m).peRatio = jsFirstTruthy [m.peBasicExclExtraTTM, m.peTTM]
    ∧ (extractKeyRatios m).pbRatio = jsFirstTruthy [m.pbQuarterly, m.pbAnnual]
    ∧ (extractKeyRatios m).roe = jsFirstTruthy [m.roeRfy, m.roeTTM]
    ∧ (extractKeyRatios m).roa = jsFirstTruthy [m.roaRfy, m.roaTTM]
    ∧ (extractKeyRatios m).eps = jsFirstTruthy [m.epsBasicExclExtraItemsTTM, m.epsTTM]
    ∧ (extractKeyRatios m).bookValue
        = jsFirstTruthy [m.bookValuePerShareQuarterly, m.bookValuePerShareAnnual]
    ∧ (extractKeyRatios m).debtToEquity
        = jsFirstTruthy [m.totalDebt2EquityQuarterly, m.totalDebt2EquityAnnual]
    ∧ (extractKeyRatios m).currentRatio
        = jsFirstTruthy [m.currentRatioQuarterly, m.currentRatioAnnual]
    ∧ (extractKeyRatios m).quickRatio
        = jsFirstTruthy [m.quickRatioQuarterly, m.quickRatioAnnual]
    ∧ (extractKeyRatios m).profitMargin = jsFirstTruthy [m.netProfitMarginTTM]
    ∧ (extractKeyRatios m).operatingMargin = jsFirstTruthy [m.operatingMarginTTM]
    ∧ (extractKeyRatios m).dividendYield = jsFirstTruthy [m.dividendYieldIndicatedAnnual]
    ∧ (extractKeyRatios m).dividendPerShare = jsFirstTruthy [m.dividendsPerShareTTM]
    ∧ (extractKeyRatios m).revenueGrowth = jsFirstTruthy [m.revenueGrowthTTMYoy]
    ∧ (extractKeyRatios m).epsGrowth = jsFirstTruthy [m.epsGrowthTTMYoy]
    ∧ analyzeFundamentals none pr = none :=
  ⟨rfl, rfl, rfl, rfl, rfl, rfl, rfl, rfl, rfl, rfl, rfl, rfl, rfl, rfl, rfl, rfl⟩

end StockDashboard

namespace StockDashboard

open StockScoringService FundamentalAnalysisService SentimentService

/-! ## Claim C10: the zero-yield dividend branch -/

/-- Claim C10: a dividend yield of exactly 0 is falsy, so the truthiness
guard skips every rule and the category keeps the untouched baseline (score
50, no insights); consequently the inner `dividendYield === 0` branch with
its neutral no-dividends insight can never fire, for any metrics input. -/
theorem dividend_zero_baseline (m : Metrics)
    (h0 : m.dividendYieldIndicatedAnnual = some 0) :
    (analyzeDividend m).score = 50 ∧ (analyzeDividend m).insights = []
    ∧ ∀ m' : Metrics, ∀ i ∈ (analyzeDividend m').insights,
        i.tag ≠ InsightTag.noDividends := by
  refine ⟨?_, ?_, ?_⟩
  · simp [analyzeDividend, h0, jsTruthy]
  · simp [analyzeDividend, h0, jsTruthy]
  · intro m' i hi
    cases hdy : m'.dividendYieldIndicatedAnnual with
    | none => simp [analyzeDividend, hdy, jsTruthy] at hi
    | some y =>
      by_cases hy : y = 0
      · simp [analyzeDividend, hdy, jsTruthy, hy] at hi
      · simp only [analyzeDividend, hdy, jsTruthy] at hi
        rw [if_pos (show (y != 0) = true by simp [hy])] at hi
        simp only [Option.getD_some] at hi
        split_ifs at hi <;> simp_all

/-- Witness for `dividend_zero_baseline` at the metrics with yield 0. -/
theorem dividend_zero_baseline_witness :
    (analyzeDividend { dividendYieldIndicatedAnnual := some 0 }).score = 50
    ∧ (analyzeDividend { dividendYieldIndicatedAnnual := some 0 }).insights = [] := by
  have h := dividend_zero_baseline { dividendYieldIndicatedAnnual := some 0 } rfl
  exact ⟨h.1, h.2.1⟩

/-! ## Claim C5: all-null metrics baseline -/

/-- The metrics record in which every provider metric is null. -/
def nullMetrics : Metrics := {}

lemma analyzeValuation_null (b : Benchmark) :
    (analyzeValuation nullMetrics b).score = 50
    ∧ (analyzeValuation nullMetrics b).insights = [] := by
  simp [analyzeValuation, nullMetrics, jsOr, jsTruthy]

lemma analyzeProfitability_null (b : Benchmark) :
    (analyzeProfitability nullMetrics b).score = 50
    ∧ (analyzeProfitability nullMetrics b).insights = [] := by
  simp [analyzeProfitability, nullMetrics, jsOr, jsTruthy]

lemma analyzeLiquidity_null (b : Benchmark) :
    (analyzeLiquidity nullMetrics b).score = 50
    ∧ (analyzeLiquidity nullMetrics b).insights = [] := by
  simp [analyzeLiquidity, nullMetrics, jsOr, jsTruthy]

lemma analyzeLeverage_null (b : Benchmark) :
    (analyzeLeverage nullMetrics b).score = 50
    ∧ (analyzeLeverage nullMetrics b).insights = [] := by
  simp [analyzeLeverage, nullMetrics, jsOr, jsTruthy]

lemma analyzeDividend_null :
    (analyzeDividend nullMetrics).score = 50
    ∧ (analyzeDividend nullMetrics).insights = [] := by
  simp [analyzeDividend, nullMetrics, jsOr, jsTruthy]

lemma analyzeGrowth_null :
    (analyzeGrowth nullMetrics).score = 50
    ∧ (analyzeGrowth nullMetrics).insights = [] := by
  simp [analyzeGrowth, nullMetrics, jsOr, jsTruthy]

lemma calculateOverallScore_all_fifty (v p l lev d g : CategoryScore)
    (hv : v.score = 50) (hp : p.score = 50) (hl : l.score = 50) (hlev : lev.score = 50)
    (hd : d.score = 50) (hg : g.score = 50) :
    (calculateOverallScore v p l lev d g).score = 50 := by
  norm_num [calculateOverallScore, hv, hp, hl, hlev, hd, hg, jsRound, min_def, max_def]

/-- Claim C5: when every provider metric is null, no rule fires, every one of
the six category scores is the untouched baseline 50 with no insights, and
the overall weighted fundamental score is 50, for any profile. -/
theorem null_metrics_baseline (pr : Option Profile) :
    ∃ a : FundamentalAnalysis,
      analyzeFundamentals (some nullMetrics) pr = some a
      ∧ a.valuation.score = 50 ∧ a.valuation.insights = []
      ∧ a.profitability.score = 50 ∧ a.profitability.insights = []
      ∧ a.liquidity.score = 50 ∧ a.liquidity.insights = []
      ∧ a.leverage.score = 50 ∧ a.leverage.insights = []
      ∧ a.dividend.score = 50 ∧ a.dividend.insights = []
      ∧ a.growth.score = 50 ∧ a.growth.insights = []
      ∧ a.overall.score = 50 := by
  refine ⟨_, rfl, (analyzeValuation_null _).1, (analyzeValuation_null _).2,
    (analyzeProfitability_null _).1, (analyzeProfitability_null _).2,
    (analyzeLiquidity_null _).1, (analyzeLiquidity_null _).2,
    (analyzeLeverage_null _).1, (analyzeLeverage_null _).2,
    analyzeDividend_null.1, analyzeDividend_null.2,
    analyzeGrowth_null.1, analyzeGrowth_null.2, ?_⟩
  exact calculateOverallScore_all_fifty _ _ _ _ _ _
    (analyzeValuation_null _).1 (analyzeProfitability_null _).1
    (analyzeLiquidity_null _).1 (analyzeLeverage_null _).1
    analyzeDividend_null.1 analyzeGrowth_null.1

end StockDashboard

namespace StockDashboard

open StockScoringService FundamentalAnalysisService SentimentService

/-! ## Claim C3: trend sub-score -/

/-- Claim C3 counterexample: a constant list of ten closes gives trend score
10, while the claimed comparison of five-close averages has percent
difference 0 for constant closes, which the threshold table maps to 35.  For
ten closes the older window `slice(-20, -15)` is empty, its average is NaN,
and the source falls through every comparison to 10. -/
theorem trend_short_history_cex :
    calculateTrendScore (some ⟨some (List.replicate 10 (100:ℚ))⟩) = 10
    ∧ trendBucket 0 = 35
    ∧ (10:ℤ) ≠ 35 := by
  refine ⟨?_, by norm_num [trendBucket], by norm_num⟩
  norm_num [calculateTrendScore]

/-- Claim C3 as amended: with fewer than 10 closes the trend sub-score is the
neutral 50.  The described comparison — the average of the most recent 5
closes against the average of the 5-sample window 15 to 20 samples back,
mapped through the thresholds — only happens with at least 20 closes (and a
nonzero older average); with 10 to 15 closes the older window is empty, its
NaN average fails every comparison and the score is 10; with 16 to 19 closes
the older window holds only `length − 15` samples. -/
theorem trend_score_windows (l : List ℚ) :
    (l.length < 10 → calculateTrendScore (some ⟨some l⟩) = 50)
    ∧ (10 ≤ l.length → l.length ≤ 15 → calculateTrendScore (some ⟨some l⟩) = 10)
    ∧ (16 ≤ l.length → l.length ≤ 19 →
        (l.take (l.length - 15)).sum / ((l.length - 15 : ℕ) : ℚ) ≠ 0 →
        calculateTrendScore (some ⟨some l⟩) =
          trendBucket (((l.drop (l.length - 5)).sum / 5
              - (l.take (l.length - 15)).sum / ((l.length - 15 : ℕ) : ℚ))
            / ((l.take (l.length - 15)).sum / ((l.length - 15 : ℕ) : ℚ)) * 100))
    ∧ (20 ≤ l.length →
        ((l.drop (l.length - 20)).take 5).sum / 5 ≠ 0 →
        calculateTrendScore (some ⟨some l⟩) =
          trendBucket ((((l.drop (l.length - 20)).drop 15).sum / 5
              - ((l.drop (l.length - 20)).take 5).sum / 5)
            / (((l.drop (l.length - 20)).take 5).sum / 5) * 100)) := by
  refine ⟨?_, ?_, ?_, ?_⟩
  · intro hlen
    simp [calculateTrendScore, hlen]
  · intro h10 h15
    simp [calculateTrendScore, show ¬ l.length < 10 by omega,
      show l.length - 20 = 0 by omega, show l.length - 15 = 0 by omega]
  · intro h16 h19 hne
    have h20 : l.length - 20 = 0 := by omega
    have htake : (l.take (l.length - 15)).length = l.length - 15 := by
      rw [List.length_take]; omega
    have hdrop : (l.drop (l.length - 5)).length = 5 := by
      rw [List.length_drop]; omega
    have hempty : (l.take (l.length - 15)).isEmpty = false := by
      have : (l.take (l.length - 15)).length ≠ 0 := by omega
      rcases hx : l.take (l.length - 15) with _ | ⟨a, rest⟩
      · rw [hx] at this; simp at this
      · rfl
    simp only [calculateTrendScore, show ¬ l.length < 10 by omega, if_false,
      h20, List.drop_zero, hempty, Bool.false_eq_true, htake, hdrop]
    rw [if_neg hne]
    congr 1
  · intro h20 hne
    have hplen : (l.drop (l.length - 20)).length = 20 := by
      rw [List.length_drop]; omega
    have hempty : ((l.drop (l.length - 20)).take 5).isEmpty = false := by
      have hlt : ((l.drop (l.length - 20)).take 5).length = 5 := by
        rw [List.length_take, hplen]; omega
      rcases hx : (l.drop (l.length - 20)).take 5 with _ | ⟨a, rest⟩
      · rw [hx] at hlt; simp at hlt
      · rfl
    have hto : ((l.drop (l.length - 20)).take 5).length = 5 := by
      rw [List.length_take, hplen]; omega
    have hro : ((l.drop (l.length - 20)).drop 15).length = 5 := by
      rw [List.length_drop, hplen]
    simp only [calculateTrendScore, show ¬ l.length < 10 by omega, if_false, hplen,
      show (20:ℕ) - 5 = 15 by norm_num, show (20:ℕ) - 15 = 5 by norm_num,
      hempty, Bool.false_eq_true, hto, hro]
    rw [if_neg (by exact_mod_cast hne)]
    norm_num

end StockDashboard

namespace StockDashboard

open StockScoringService FundamentalAnalysisService SentimentService

/-- Twenty closes: fifteen at 100 followed by five at 110. -/
def l20 : List ℚ :=
  [100, 100, 100, 100, 100, 100, 100, 100, 100, 100,
   100, 100, 100, 100, 100, 110, 110, 110, 110, 110]

/-- Witness for `trend_score_windows` on the twenty-close list `l20`. -/
theorem trend_score_windows_witness :
    calculateTrendScore (some ⟨some l20⟩) =
      trendBucket ((((l20.drop (l20.length - 20)).drop 15).sum / 5
          - ((l20.drop (l20.length - 20)).take 5).sum / 5)
        / (((l20.drop (l20.length - 20)).take 5).sum / 5) * 100) :=
  (trend_score_windows l20).2.2.2 (by norm_num [l20]) (by norm_num [l20])

/-! ## Claim C7: sentiment aggregation invariants -/

lemma countStep_sum (acc : ℕ × ℕ × ℕ) (r : SentimentResult) :
    (countStep acc r).1 + (countStep acc r).2.1 + (countStep acc r).2.2
      = acc.1 + acc.2.1 + acc.2.2 + 1 := by
  unfold countStep
  split_ifs
  · simp; omega
  · cases r.label <;> simp <;> omega

lemma foldl_countStep_sum (rs : List SentimentResult) :
    ∀ acc : ℕ × ℕ × ℕ,
      (rs.foldl countStep acc).1 + (rs.foldl countStep acc).2.1
          + (rs.foldl countStep acc).2.2
        = acc.1 + acc.2.1 + acc.2.2 + rs.length := by
  induction rs with
  | nil => intro acc; simp
  | cons r rest ih =>
    intro acc
    simp only [List.foldl_cons, List.length_cons]
    rw [ih (countStep acc r), countStep_sum]
    omega

lemma sentCounts_sum (rs : List SentimentResult) :
    (sentCounts rs).1 + (sentCounts rs).2.1 + (sentCounts rs).2.2 = rs.length := by
  unfold sentCounts
  rw [foldl_countStep_sum]
  simp

lemma round_percent_sum_bounds (cp cn cg : ℕ) (h : cp + cn + cg ≠ 0) :
    99 ≤ jsRound ((cp:ℚ) / ((cp + cn + cg : ℕ) : ℚ) * 100)
          + jsRound ((cn:ℚ) / ((cp + cn + cg : ℕ) : ℚ) * 100)
          + jsRound ((cg:ℚ) / ((cp + cn + cg : ℕ) : ℚ) * 100)
    ∧ jsRound ((cp:ℚ) / ((cp + cn + cg : ℕ) : ℚ) * 100)
          + jsRound ((cn:ℚ) / ((cp + cn + cg : ℕ) : ℚ) * 100)
          + jsRound ((cg:ℚ) / ((cp + cn + cg : ℕ) : ℚ) * 100) ≤ 101 := by
  set T : ℚ := ((cp + cn + cg : ℕ) : ℚ) with hT
  have hT0 : T ≠ 0 := by
    rw [hT]
    exact_mod_cast Nat.cast_ne_zero.mpr h
  have hx : (cp:ℚ) / T * 100 + (cn:ℚ) / T * 100 + (cg:ℚ) / T * 100 = 100 := by
    field_simp
    rw [hT]
    push_cast
    ring
  have u1 : ((jsRound ((cp:ℚ) / T * 100) : ℤ) : ℚ) ≤ (cp:ℚ) / T * 100 + 1/2 :=
    Int.floor_le _
  have u2 : ((jsRound ((cn:ℚ) / T * 100) : ℤ) : ℚ) ≤ (cn:ℚ) / T * 100 + 1/2 :=
    Int.floor_le _
  have u3 : ((jsRound ((cg:ℚ) / T * 100) : ℤ) : ℚ) ≤ (cg:ℚ) / T * 100 + 1/2 :=
    Int.floor_le _
  have v1 : (cp:ℚ) / T * 100 + 1/2 - 1 < ((jsRound ((cp:ℚ) / T * 100) : ℤ) : ℚ) :=
    Int.sub_one_lt_floor _
  have v2 : (cn:ℚ) / T * 100 + 1/2 - 1 < ((jsRound ((cn:ℚ) / T * 100) : ℤ) : ℚ) :=
    Int.sub_one_lt_floor _
  have v3 : (cg:ℚ) / T * 100 + 1/2 - 1 < ((jsRound ((cg:ℚ) / T * 100) : ℤ) : ℚ) :=
    Int.sub_one_lt_floor _
  constructor
  · have hlt : (98:ℚ) < ((jsRound ((cp:ℚ) / T * 100) + jsRound ((cn:ℚ) / T * 100)
        + jsRound ((cg:ℚ) / T * 100) : ℤ) : ℚ) := by
      push_cast
      linarith
    have : (98:ℤ) < jsRound ((cp:ℚ) / T * 100) + jsRound ((cn:ℚ) / T * 100)
        + jsRound ((cg:ℚ) / T * 100) := by exact_mod_cast hlt
    omega
  · have hlt : ((jsRound ((cp:ℚ) / T * 100) + jsRound ((cn:ℚ) / T * 100)
        + jsRound ((cg:ℚ) / T * 100) : ℤ) : ℚ) < 102 := by
      push_cast
      linarith
    have : jsRound ((cp:ℚ) / T * 100) + jsRound ((cn:ℚ) / T * 100)
        + jsRound ((cg:ℚ) / T * 100) < (102:ℤ) := by exact_mod_cast hlt
    omega

/-- Claim C7: for every nonempty result list the counts add up to the number
of results (errored results counting as neutral), the reported total is that
sum, and the three rounded percentages sum to 100 within 1. -/
theorem sentiment_aggregate_invariants (rs : List SentimentResult) (hne : rs ≠ []) :
    (aggregateSentiments (some rs)).positive + (aggregateSentiments (some rs)).neutral
        + (aggregateSentiments (some rs)).negative = rs.length
    ∧ (aggregateSentiments (some rs)).total
        = some ((aggregateSentiments (some rs)).positive
            + (aggregateSentiments (some rs)).neutral
            + (aggregateSentiments (some rs)).negative)
    ∧ ∃ pct : SentPercentages,
        (aggregateSentiments (some rs)).percentages = some pct
        ∧ 99 ≤ pct.positive + pct.neutral + pct.negative
        ∧ pct.positive + pct.neutral + pct.negative ≤ 101 := by
  have hlen : ¬ rs.length = 0 := fun h0 => hne (List.length_eq_zero.mp h0)
  have hsum := sentCounts_sum rs
  have hb := round_percent_sum_bounds (sentCounts rs).1 (sentCounts rs).2.1
    (sentCounts rs).2.2 (by omega)
  simp only [aggregateSentiments, if_neg hlen]
  exact ⟨hsum, trivial, ⟨_, rfl, hb.1, hb.2⟩⟩

end StockDashboard

namespace StockDashboard

open StockScoringService FundamentalAnalysisService SentimentService

/-- Eight headline results: one positive, three neutral (one by error), four
negative; the rounded percentages 13, 38 and 50 sum to 101. -/
def rs8 : List SentimentResult :=
  [⟨SentimentLabel.positive, 4/5, false⟩,
   ⟨SentimentLabel.neutral, 1/2, false⟩,
   ⟨SentimentLabel.neutral, 1/2, false⟩,
   ⟨SentimentLabel.neutral, 1/2, true⟩,
   ⟨SentimentLabel.negative, 1/5, false⟩,
   ⟨SentimentLabel.negative, 1/5, false⟩,
   ⟨SentimentLabel.negative, 1/5, false⟩,
   ⟨SentimentLabel.negative, 1/5, false⟩]

/-- Witness for `sentiment_aggregate_invariants` on the eight-result list. -/
theorem sentiment_aggregate_invariants_witness :
    (aggregateSentiments (some rs8)).positive + (aggregateSentiments (some rs8)).neutral
        + (aggregateSentiments (some rs8)).negative = rs8.length
    ∧ (aggregateSentiments (some rs8)).total
        = some ((aggregateSentiments (some rs8)).positive
            + (aggregateSentiments (some rs8)).neutral
            + (aggregateSentiments (some rs8)).negative)
    ∧ ∃ pct : SentPercentages,
        (aggregateSentiments (some rs8)).percentages = some pct
        ∧ 99 ≤ pct.positive + pct.neutral + pct.negative
        ∧ pct.positive + pct.neutral + pct.negative ≤ 101 :=
  sentiment_aggregate_invariants rs8 (by simp [rs8])

end StockDashboard

namespace StockDashboard

open StockScoringService FundamentalAnalysisService SentimentService

/-! ## Claim C1: composite technical score -/

lemma clamp_bounds (x : ℤ) : 0 ≤ max 0 (min 100 x) ∧ max 0 (min 100 x) ≤ 100 :=
  ⟨le_max_left _ _, max_le (by norm_num) (min_le_left _ _)⟩

/-- Claim C1: the composite technical score is the weighted sum of the
available sub-scores (weights price 0.30, momentum 0.25, volatility 0.20,
market 0.15, trend 0.10), renormalized by the sum of the present weights,
rounded to nearest, clamped to `[0, 100]`; and it always lies in `[0, 100]`.
The trend sub-score is available exactly when historical closes with more
than one entry were supplied. -/
theorem composite_score_formula (quote : Option Quote) (profile : Option Profile)
    (historicalData : Option Historical) :
    (0 ≤ (calculateScore quote profile historicalData).score
      ∧ (calculateScore quote profile historicalData).score ≤ 100)
    ∧ (calculateScore quote profile historicalData).score =
        max 0 (min 100 (jsRound (
          ((3/10) * (calculatePriceScore quote : ℚ)
            + (1/4) * (calculateMomentumScore quote : ℚ)
            + (1/5) * (calculateVolatilityScore quote : ℚ)
            + (3/20) * (calculateMarketScore profile : ℚ)
            + (match historicalData with
               | some hd =>
                 match hd.c with
                 | some closes =>
                   if closes.length > 1 then
                     (1/10) * (calculateTrendScore historicalData : ℚ)
                   else 0
                 | none => 0
               | none => 0))
          / ((9/10) + (match historicalData with
               | some hd =>
                 match hd.c with
                 | some closes => if closes.length > 1 then (1/10 : ℚ) else 0
                 | none => 0
               | none => 0))))) := by
  rcases historicalData with _ | ⟨_ | closes⟩
  · simp only [calculateScore]
    rw [if_pos (by norm_num : (9/10 + 0 : ℚ) > 0)]
    refine ⟨clamp_bounds _, ?_⟩
    congr 2
    ring_nf
  · simp only [calculateScore]
    rw [if_pos (by norm_num : (9/10 + 0 : ℚ) > 0)]
    refine ⟨clamp_bounds _, ?_⟩
    congr 2
    ring_nf
  · by_cases hl : closes.length > 1
    · simp only [calculateScore, hl, if_true]
      rw [if_pos (by norm_num : (9/10 + 1/10 : ℚ) > 0)]
      refine ⟨clamp_bounds _, ?_⟩
      congr 2
      ring_nf
    · simp only [calculateScore, hl, if_false]
      rw [if_pos (by norm_num : (9/10 + 0 : ℚ) > 0)]
      refine ⟨clamp_bounds _, ?_⟩
      congr 2
      ring_nf

end StockDashboard

namespace StockDashboard

open StockScoringService FundamentalAnalysisService SentimentService

/-! ## Claim C4: overall fundamental score and label -/

/-- Metrics reaching category scores 75, 75, 35, 35, 45, 70 under the default
benchmark, whose weighted average is 59.5. -/
def m4 : Metrics :=
  { peBasicExclExtraTTM := some 10
    pbQuarterly := some (1/2)
    roeRfy := some 20
    netProfitMarginTTM := some 20
    currentRatioQuarterly := some (1/2)
    quickRatioQuarterly := some (1/2)
    totalDebt2EquityQuarterly := some 1
    dividendYieldIndicatedAnnual := some 7
    revenueGrowthTTMYoy := some 25
    epsGrowthTTMYoy := some 5 }

/-- Claim C4 counterexample: for `m4` the weighted average is 59.5; the
returned overall score is its rounding 60, but the attached label is
computed from the unrounded 59.5 and reads `"Fair"`, while the claimed
thresholds assign 60 the label `"Good"`. -/
theorem overall_label_rounding_cex :
    (analyzeFundamentals (some m4) none).map
        (fun a => (a.overall.score, a.overall.label.text)) = some (60, "Fair")
    ∧ (getScoreLabel ((60:ℚ))).text = "Good"
    ∧ ("Fair" : String) ≠ "Good" := by
  have hb : getIndustryBenchmark ((none : Option Profile).bind Profile.finnhubIndustry)
      = defaultBenchmark := rfl
  have hval : (analyzeValuation m4 defaultBenchmark).score = 75 := by
    norm_num [analyzeValuation, m4, defaultBenchmark, jsOr, jsTruthy]
  have hprof : (analyzeProfitability m4 defaultBenchmark).score = 75 := by
    norm_num [analyzeProfitability, m4, defaultBenchmark, jsOr, jsTruthy]
  have hliq : (analyzeLiquidity m4 defaultBenchmark).score = 35 := by
    norm_num [analyzeLiquidity, m4, defaultBenchmark, jsOr, jsTruthy]
  have hlev : (analyzeLeverage m4 defaultBenchmark).score = 35 := by
    norm_num [analyzeLeverage, m4, defaultBenchmark, jsOr, jsTruthy]
  have hdiv : (analyzeDividend m4).score = 45 := by
    norm_num [analyzeDividend, m4, jsTruthy]
  have hgro : (analyzeGrowth m4).score = 70 := by
    norm_num [analyzeGrowth, m4, jsTruthy]
  refine ⟨?_, by norm_num [FundamentalAnalysisService.getScoreLabel], by decide⟩
  simp only [analyzeFundamentals, hb, Option.map_some]
  norm_num [calculateOverallScore, hval, hprof, hliq, hlev, hdiv, hgro, jsRound,
    FundamentalAnalysisService.getScoreLabel, min_def, max_def]

lemma jsRound_clamp_bounds (w : ℚ) :
    0 ≤ jsRound (max 0 (min 100 w)) ∧ jsRound (max 0 (min 100 w)) ≤ 100 := by
  have h0 : (0:ℚ) ≤ max 0 (min 100 w) := le_max_left _ _
  have h1 : max 0 (min 100 w) ≤ 100 := max_le (by norm_num) (min_le_left _ _)
  unfold jsRound
  constructor
  · exact Int.le_floor.mpr (by push_cast; linarith)
  · have hlt : ⌊max 0 (min 100 w) + 1/2⌋ < 101 := Int.floor_lt.mpr (by push_cast; linarith)
    omega

/-- Claim C4 as amended: the overall fundamental score is the rounding of
the clamped weighted average of the six category scores (weights valuation
0.25, profitability 0.25, liquidity 0.15, leverage 0.15, dividend 0.10,
growth 0.10), hence in `[0, 100]`; the attached label applies the thresholds
`≥75` Excellent, `≥60` Good, `≥40` Fair, else Poor to the unrounded weighted
average, which at half-point boundaries can disagree with the label of the
rounded score. -/
theorem overall_score_label_formula (v p l lev d g : CategoryScore) :
    (calculateOverallScore v p l lev d g).score
        = jsRound (max 0 (min 100 ((v.score:ℚ) * (1/4) + (p.score:ℚ) * (1/4)
            + (l.score:ℚ) * (3/20) + (lev.score:ℚ) * (3/20)
            + (d.score:ℚ) * (1/10) + (g.score:ℚ) * (1/10))))
    ∧ (calculateOverallScore v p l lev d g).label
        = getScoreLabel ((v.score:ℚ) * (1/4) + (p.score:ℚ) * (1/4)
            + (l.score:ℚ) * (3/20) + (lev.score:ℚ) * (3/20)
            + (d.score:ℚ) * (1/10) + (g.score:ℚ) * (1/10))
    ∧ (getScoreLabel ((v.score:ℚ) * (1/4) + (p.score:ℚ) * (1/4)
            + (l.score:ℚ) * (3/20) + (lev.score:ℚ) * (3/20)
            + (d.score:ℚ) * (1/10) + (g.score:ℚ) * (1/10))).text
        = (if ((v.score:ℚ) * (1/4) + (p.score:ℚ) * (1/4)
            + (l.score:ℚ) * (3/20) + (lev.score:ℚ) * (3/20)
            + (d.score:ℚ) * (1/10) + (g.score:ℚ) * (1/10)) ≥ 75 then "Excellent"
          else if ((v.score:ℚ) * (1/4) + (p.score:ℚ) * (1/4)
            + (l.score:ℚ) * (3/20) + (lev.score:ℚ) * (3/20)
            + (d.score:ℚ) * (1/10) + (g.score:ℚ) * (1/10)) ≥ 60 then "Good"
          else if ((v.score:ℚ) * (1/4) + (p.score:ℚ) * (1/4)
            + (l.score:ℚ) * (3/20) + (lev.score:ℚ) * (3/20)
            + (d.score:ℚ) * (1/10) + (g.score:ℚ) * (1/10)) ≥ 40 then "Fair"
          else "Poor")
    ∧ 0 ≤ (calculateOverallScore v p l lev d g).score
    ∧ (calculateOverallScore v p l lev d g).score ≤ 100 := by
  refine ⟨rfl, rfl, ?_, (jsRound_clamp_bounds _).1, (jsRound_clamp_bounds _).2⟩
  unfold FundamentalAnalysisService.getScoreLabel
  split_ifs <;> rfl

end StockDashboard
